import Mathlib

/-!
Shallow embedding of the patient-management service (TypeScript sources:
`src/services/patientService.ts`, `src/controllers/patientController.ts`,
`src/config/opensearch.ts`, `src/config/database.ts`, `src/types/patient.ts`).

External collaborators (DynamoDB, OpenSearch, the system clock and the UUID
generator) are modelled as explicit parameters: the clock reading `now` and the
fresh identifier `newId` are inputs, DynamoDB is a pure association list keyed
by `patientId`, and each network call to the search service is represented by
its outcome (`Except String _`, where `Except.error m` stands for a rejected
promise carrying a JavaScript `Error` with message `m`).
-/

namespace PatientService

/-- Patient entity, from `src/types/patient.ts` (interface `Patient`). -/
structure Patient where
  patientId : String
  name : String
  address : String
  conditions : List String
  allergies : List String
  createdAt : String
  updatedAt : String
deriving DecidableEq, Repr

/-- Input for `createPatient`, from `src/types/patient.ts`
(`CreatePatientInput`). Note this type has no `patientId` field: the caller
cannot supply an identifier. -/
structure CreatePatientInput where
  name : String
  address : String
  conditions : List String
  allergies : List String
deriving DecidableEq, Repr

/-- Input for `updatePatient`, from `src/types/patient.ts`
(`UpdatePatientInput`). Optional TypeScript fields become `Option`. -/
structure UpdatePatientInput where
  patientId : String
  name : Option String
  address : Option String
  conditions : Option (List String)
  allergies : Option (List String)
deriving DecidableEq, Repr

/-- The primary store (DynamoDB `Patients` table): a list of records keyed by
`patientId`. -/
abbrev Store := List Patient

/-- Point lookup by key, the semantics of `GetCommand` on the primary store. -/
def findById (store : Store) (pid : String) : Option Patient :=
  store.find? (fun p => p.patientId == pid)

/-- Message carried by the conditional-write failure of the primary store
(AWS `ConditionalCheckFailedException`): the fixed message is
"The conditional request failed". Raised when a `ConditionExpression`
(`attribute_not_exists(patientId)` on create, `attribute_exists(patientId)`
on update and delete) does not hold. -/
def conditionalRequestFailedMsg : String := "The conditional request failed"

/-- The record `createPatient` builds (patientService.ts lines 37-45):
generated id, caller fields, `createdAt = updatedAt = now`. -/
def mkNewPatient (input : CreatePatientInput) (now newId : String) : Patient :=
  { patientId := newId, name := input.name, address := input.address,
    conditions := input.conditions, allergies := input.allergies,
    createdAt := now, updatedAt := now }

/-- `createPatient` from `src/services/patientService.ts` lines 33-62.
Builds the record with a generated id and `createdAt = updatedAt = now`,
writes it guarded by `attribute_not_exists(patientId)`, then attempts the
OpenSearch indexing with `.catch` so that `_indexOutcome` never influences
the result. -/
def createPatient (store : Store) (input : CreatePatientInput)
    (now newId : String) (_indexOutcome : Except String Unit) :
    Except String (Patient × Store) :=
  let patient : Patient := mkNewPatient input now newId
  match findById store newId with
  | some _ => Except.error conditionalRequestFailedMsg
  | none => Except.ok (patient, patient :: store)

/-- `getPatientById` from `src/services/patientService.ts` lines 67-77:
a point lookup, `null` becomes `none`. -/
def getPatientById (store : Store) (pid : String) : Option Patient :=
  findById store pid

/-- One entry of the dynamic `updateExpressions` list built by
`updatePatient` (lines 85-117): a `SET` clause for one attribute. -/
inductive FieldUpd where
  | setName (v : String)
  | setAddress (v : String)
  | setConditions (v : List String)
  | setAllergies (v : List String)
  | setUpdatedAt (v : String)
deriving DecidableEq, Repr

/-- The `updateExpressions` list of `updatePatient`: one clause pushed per
defined input field, then always the `updatedAt` clause (lines 89-117). -/
def buildUpdateExpressions (input : UpdatePatientInput) (now : String) :
    List FieldUpd :=
  (match input.name with | some v => [FieldUpd.setName v] | none => []) ++
  (match input.address with | some v => [FieldUpd.setAddress v] | none => []) ++
  (match input.conditions with
    | some v => [FieldUpd.setConditions v] | none => []) ++
  (match input.allergies with
    | some v => [FieldUpd.setAllergies v] | none => []) ++
  [FieldUpd.setUpdatedAt now]

/-- Semantics of one `SET` clause on a stored record. -/
def applyFieldUpd (p : Patient) : FieldUpd → Patient
  | FieldUpd.setName v => { p with name := v }
  | FieldUpd.setAddress v => { p with address := v }
  | FieldUpd.setConditions v => { p with conditions := v }
  | FieldUpd.setAllergies v => { p with allergies := v }
  | FieldUpd.setUpdatedAt v => { p with updatedAt := v }

/-- Semantics of the whole `UpdateExpression` (`SET c1, c2, ...`). -/
def applyUpdates (p : Patient) (upds : List FieldUpd) : Patient :=
  upds.foldl applyFieldUpd p

/-- In-place replacement of the record with the given key, the effect of a
successful `UpdateCommand` on the table. -/
def replaceById (store : Store) (p : Patient) : Store :=
  store.map (fun q => if q.patientId == p.patientId then p else q)

/-- `updatePatient` from `src/services/patientService.ts` lines 82-144.
Returns the thrown message or the `ALL_NEW` attributes, paired with the
resulting table state; the error paths leave the table untouched (the guard
throws before `docClient.send`, and a failed conditional write does not
modify the table). The OpenSearch re-indexing outcome is `.catch`-ed and
ignored. -/
def updatePatient (store : Store) (input : UpdatePatientInput) (now : String)
    (_indexOutcome : Except String Unit) : Except String Patient × Store :=
  let exprs := buildUpdateExpressions input now
  if exprs.length = 1 then
    (Except.error "No fields to update", store)
  else
    match findById store input.patientId with
    | none => (Except.error conditionalRequestFailedMsg, store)
    | some old =>
        let updated := applyUpdates old exprs
        (Except.ok updated, replaceById store updated)

/-- `deletePatient` from `src/services/patientService.ts` lines 149-163:
guarded by `attribute_exists(patientId)`; the OpenSearch removal outcome is
`.catch`-ed and ignored. -/
def deletePatient (store : Store) (pid : String)
    (_deleteIdxOutcome : Except String Unit) : Except String Unit × Store :=
  match findById store pid with
  | none => (Except.error conditionalRequestFailedMsg, store)
  | some _ => (Except.ok (), store.filter (fun p => !(p.patientId == pid)))

/-- Semantics of the fallback `ScanCommand` with
`FilterExpression contains(#conditions, :condition)` (lines 209-221):
for a list attribute, DynamoDB `contains` is element membership. -/
def scanByCondition (store : Store) (condition : String) : List Patient :=
  store.filter (fun p => p.conditions.contains condition)

/-- Body of the OpenSearch request built by `searchPatientsByCondition`
in `src/config/opensearch.ts` lines 273-287 (a `multi_match` query). -/
structure MultiMatchQuery where
  query : String
  fields : List String
  fuzziness : String
  queryOperator : String
  size : Nat
  fromOffset : Nat
deriving DecidableEq, Repr

/-- The query body `searchPatientsByCondition` sends: the condition string
against `conditions^2` (boosted), `name` and `address`, fuzziness AUTO,
size 100, from 0. -/
def buildConditionQuery (condition : String) : MultiMatchQuery :=
  { query := condition, fields := ["conditions^2", "name", "address"],
    fuzziness := "AUTO", queryOperator := "or", size := 100, fromOffset := 0 }

/-- `searchPatientsByCondition` from `src/config/opensearch.ts` lines
263-296. `configured` is the truthiness of `getOpenSearchClient()`; `svc`
is the search collaborator, mapping the issued query body to the `_source`
documents of the hits (or a rejection). A failure is logged and rethrown. -/
def searchPatientsByCondition (configured : Bool)
    (svc : MultiMatchQuery → Except String (List Patient))
    (condition : String) : Except String (List Patient) :=
  if configured then
    match svc (buildConditionQuery condition) with
    | Except.ok hits => Except.ok hits
    | Except.error e => Except.error e
  else
    Except.ok []

/-- `findPatientsByCondition` from `src/services/patientService.ts` lines
191-222: try OpenSearch when the client is configured, fall back to the
primary-store scan when it is absent or the search call rejects. -/
def findPatientsByCondition (configured : Bool)
    (svc : MultiMatchQuery → Except String (List Patient))
    (store : Store) (condition : String) : List Patient :=
  if configured then
    match searchPatientsByCondition configured svc condition with
    | Except.ok results => results
    | Except.error _ => scanByCondition store condition
  else
    scanByCondition store condition

/-- What `indexPatient` (opensearch.ts lines 210-230) did on one call. -/
inductive IndexOutcome where
  | skipped
  | indexed
  | logged (msg : String)
deriving DecidableEq, Repr

/-- `indexPatient` from `src/config/opensearch.ts` lines 210-230: skip when
the client is not configured, otherwise perform the `client.index` call
(`indexCall` is its outcome) inside try/catch, logging any failure. The
`Except` in the result represents a JavaScript throw escaping the function. -/
def indexPatient (configured : Bool) (indexCall : Except String Unit) :
    Except String IndexOutcome :=
  if configured then
    match indexCall with
    | Except.ok _ => Except.ok IndexOutcome.indexed
    | Except.error e => Except.ok (IndexOutcome.logged e)
  else
    Except.ok IndexOutcome.skipped

/-- JavaScript `String.prototype.includes` on lists of characters. -/
def charsIncl (pat : List Char) : List Char → Bool
  | [] => pat.isEmpty
  | c :: rest => pat.isPrefixOf (c :: rest) || charsIncl pat rest

/-- JavaScript `s.includes(pat)`. -/
def strIncludes (s pat : String) : Bool :=
  charsIncl pat.toList s.toList

/-- What `deletePatientIndex` (opensearch.ts lines 236-258) did. -/
inductive DeleteIndexOutcome where
  | skipped
  | deleted
  | notFoundOk
  | logged (msg : String)
deriving DecidableEq, Repr

/-- `deletePatientIndex` from `src/config/opensearch.ts` lines 236-258:
skip without the client; otherwise try the `client.delete` call, treat a
rejection whose message includes "not_found" as success, and log any other
failure. The `Except` in the result represents a throw escaping. -/
def deletePatientIndex (configured : Bool)
    (deleteCall : Except String Unit) : Except String DeleteIndexOutcome :=
  if configured then
    match deleteCall with
    | Except.ok _ => Except.ok DeleteIndexOutcome.deleted
    | Except.error e =>
        if strIncludes e "not_found" then
          Except.ok DeleteIndexOutcome.notFoundOk
        else
          Except.ok (DeleteIndexOutcome.logged e)
  else
    Except.ok DeleteIndexOutcome.skipped

/-- Payload of the uniform response envelope (the `data` field of
`ApiResponse` in `src/types/patient.ts`), restricted to the shapes the
controllers actually produce. -/
inductive ResponseData where
  | patientData (p : Patient)
  | patientListData (ps : List Patient)
  | pageData (ps : List Patient) (lastKey : Option String)
  | deletedIdData (pid : String)
deriving DecidableEq, Repr

/-- The uniform envelope from `src/types/patient.ts` (`ApiResponse`),
together with the HTTP status the controller sets. The `timestamp` field is
omitted (it is the clock reading at response time and no claim mentions
it). -/
structure ApiResponse where
  status : Nat
  success : Bool
  data : Option ResponseData
  error : Option String
deriving DecidableEq, Repr

/-- JSON request body as destructured by the controllers: each of the four
fields is absent (`undefined`) or present. -/
structure RequestBody where
  name : Option String
  address : Option String
  conditions : Option (List String)
  allergies : Option (List String)
deriving DecidableEq, Repr

/-- JavaScript truthiness of a possibly-absent string: `undefined` and the
empty string are falsy, every other string is truthy. -/
def jsTruthyStr : Option String → Bool
  | none => false
  | some s => !(s == "")

/-- JavaScript truthiness of a possibly-absent array: `undefined` is falsy
but every array value, including the empty array `[]`, is truthy. -/
def jsTruthyList : Option (List String) → Bool
  | none => false
  | some _ => true

/-- `createPatientHandler` from `src/controllers/patientController.ts`
lines 19-58: reject with 400 when any of the four destructured body fields
is falsy, otherwise build the input (with the `conditions || []` and
`allergies || []` defaults of lines 39-40) and call the service; 201 on
success, 500 with the thrown message otherwise. -/
def createPatientHandler (body : RequestBody) (store : Store)
    (now newId : String) (indexOutcome : Except String Unit) :
    ApiResponse × Store :=
  if !(jsTruthyStr body.name) || !(jsTruthyStr body.address) ||
      !(jsTruthyList body.conditions) || !(jsTruthyList body.allergies) then
    ({ status := 400, success := false, data := none,
       error := some "Name, address, conditions, and allergies are required" },
     store)
  else
    let input : CreatePatientInput :=
      { name := body.name.getD "", address := body.address.getD "",
        conditions := body.conditions.getD [],
        allergies := body.allergies.getD [] }
    match createPatient store input now newId indexOutcome with
    | Except.ok (p, store2) =>
        ({ status := 201, success := true,
           data := some (ResponseData.patientData p), error := none }, store2)
    | Except.error e =>
        ({ status := 500, success := false, data := none, error := some e },
         store)

/-- `getPatientHandler` from `src/controllers/patientController.ts` lines
64-105: 400 on a falsy path parameter, 404 when the lookup returns null,
200 with the record otherwise. -/
def getPatientHandler (pid : String) (store : Store) : ApiResponse :=
  if pid == "" then
    { status := 400, success := false, data := none,
      error := some "Patient ID is required" }
  else
    match getPatientById store pid with
    | none =>
        { status := 404, success := false, data := none,
          error := some "Patient not found" }
    | some p =>
        { status := 200, success := true,
          data := some (ResponseData.patientData p), error := none }

/-- `updatePatientHandler` from `src/controllers/patientController.ts`
lines 111-164: 400 on a falsy path parameter; the body fields are spread
into the input exactly when defined; a thrown message containing
"No fields to update" or "attribute_not_exists" maps to 400, every other
thrown message to 500. -/
def updatePatientHandler (pid : String) (body : RequestBody) (store : Store)
    (now : String) (indexOutcome : Except String Unit) :
    ApiResponse × Store :=
  if pid == "" then
    ({ status := 400, success := false, data := none,
       error := some "Patient ID is required" }, store)
  else
    let input : UpdatePatientInput :=
      { patientId := pid, name := body.name, address := body.address,
        conditions := body.conditions, allergies := body.allergies }
    let result := updatePatient store input now indexOutcome
    match result.1 with
    | Except.ok p =>
        ({ status := 200, success := true,
           data := some (ResponseData.patientData p), error := none },
         result.2)
    | Except.error e =>
        if strIncludes e "No fields to update" ||
            strIncludes e "attribute_not_exists" then
          ({ status := 400, success := false, data := none, error := some e },
           result.2)
        else
          ({ status := 500, success := false, data := none, error := some e },
           result.2)

/-- `deletePatientHandler` from `src/controllers/patientController.ts`
lines 170-201: 400 on a falsy path parameter, 200 on success, and 500 with
the thrown message on every service error; the handler has no 404 branch. -/
def deletePatientHandler (pid : String) (store : Store)
    (deleteIdxOutcome : Except String Unit) : ApiResponse × Store :=
  if pid == "" then
    ({ status := 400, success := false, data := none,
       error := some "Patient ID is required" }, store)
  else
    let result := deletePatient store pid deleteIdxOutcome
    match result.1 with
    | Except.ok _ =>
        ({ status := 200, success := true,
           data := some (ResponseData.deletedIdData pid), error := none },
         result.2)
    | Except.error e =>
        ({ status := 500, success := false, data := none, error := some e },
         result.2)

/-- Numeric value of a hexadecimal digit character, for `parseInt`. -/
def hexDigitVal (c : Char) : Option Nat :=
  if c.isDigit then some (c.toNat - 48)
  else if 'a' ≤ c ∧ c ≤ 'f' then some (c.toNat - 87)
  else if 'A' ≤ c ∧ c ≤ 'F' then some (c.toNat - 55)
  else none

/-- Longest digit prefix in the given radix, JavaScript `parseInt` style:
`none` when no digit was consumed (the NaN case). -/
def parseDigitsAux (radix : Nat) : List Char → Nat → Bool → Option Nat
  | [], acc, seen => if seen then some acc else none
  | c :: rest, acc, seen =>
      match hexDigitVal c with
      | some v =>
          if v < radix then parseDigitsAux radix rest (acc * radix + v) true
          else if seen then some acc else none
      | none => if seen then some acc else none

/-- Magnitude of JavaScript `parseInt` after sign handling: a `0x`/`0X`
prefix selects radix 16, otherwise radix 10. -/
def parseIntMagnitude : List Char → Option Nat
  | '0' :: 'x' :: rest => parseDigitsAux 16 rest 0 false
  | '0' :: 'X' :: rest => parseDigitsAux 16 rest 0 false
  | cs => parseDigitsAux 10 cs 0 false

/-- JavaScript `parseInt(x)` on `req.query.limit as string`: an absent query
parameter is `undefined` and parses to NaN (`none`); otherwise leading
whitespace is skipped, an optional sign read, and the longest digit prefix
parsed, NaN when there is none. -/
def parseIntJS : Option String → Option Int
  | none => none
  | some s =>
      let cs := s.toList.dropWhile (fun c => c.isWhitespace)
      match cs with
      | '-' :: rest => (parseIntMagnitude rest).map (fun n => -(n : Int))
      | '+' :: rest => (parseIntMagnitude rest).map (fun n => (n : Int))
      | _ => (parseIntMagnitude cs).map (fun n => (n : Int))

/-- The limit computed by `listPatientsHandler` line 212:
`parseInt(req.query.limit as string) || 50`, where both NaN and 0 are falsy
and default to 50. -/
def effectiveLimit (limitParam : Option String) : Int :=
  match parseIntJS limitParam with
  | none => 50
  | some n => if n = 0 then 50 else n

/-- Response of a primary-store `ScanCommand` with a `Limit`: the page of
items and the `LastEvaluatedKey` continuation, absent when the scan reached
the end of the table. -/
structure ScanResponse where
  items : List Patient
  lastEvaluatedKey : Option String
deriving DecidableEq, Repr

/-- `listPatients` from `src/services/patientService.ts` lines 227-242:
issue the scan with the given limit and exclusive start key (`scan` is the
primary-store collaborator) and pass the page and the `LastEvaluatedKey`
through unchanged. -/
def listPatients (scan : Int → Option String → ScanResponse) (limit : Int)
    (lastEvaluatedKey : Option String) : List Patient × Option String :=
  ((scan limit lastEvaluatedKey).items,
   (scan limit lastEvaluatedKey).lastEvaluatedKey)

/-- The 200 envelope `listPatientsHandler` builds around a page. -/
def listOkResponse (r : List Patient × Option String) : ApiResponse :=
  { status := 200, success := true,
    data := some (ResponseData.pageData r.1 r.2), error := none }

/-- `listPatientsHandler` from `src/controllers/patientController.ts` lines
207-232: compute the limit with the `|| 50` default, `JSON.parse` the
optional `lastKey` parameter (`parseKey` is that collaborator; a throw is
caught and becomes 500), and answer 200 with the page. -/
def listPatientsHandler (limitParam lastKeyParam : Option String)
    (parseKey : String → Except String String)
    (scan : Int → Option String → ScanResponse) : ApiResponse :=
  let limit := effectiveLimit limitParam
  match lastKeyParam with
  | none => listOkResponse (listPatients scan limit none)
  | some s =>
      match parseKey s with
      | Except.ok k => listOkResponse (listPatients scan limit (some k))
      | Except.error e =>
          { status := 500, success := false, data := none, error := some e }

/-- Paged scan of the primary store, modelled from the spec words for list:
returns up to `limit` records and a continuation token exactly when more
records remain past this page; the token is opaque (here, the page offset
rendered as text). -/
def scanWithLimit (store : Store) (limit : Nat) : ScanResponse :=
  { items := store.take limit,
    lastEvaluatedKey :=
      if limit < store.length then some (toString limit) else none }

/-! Concrete fixtures used by witnesses and counterexamples. -/

/-- A sample stored record. -/
def demoPatient : Patient :=
  { patientId := "p1", name := "John Doe", address := "123 Main St",
    conditions := ["Diabetes"], allergies := ["Penicillin"],
    createdAt := "2026-01-01T00:00:00.000Z",
    updatedAt := "2026-01-01T00:00:00.000Z" }

/-- A one-record primary store. -/
def demoStore : Store := [demoPatient]

/-! Helper lemmas shared by the claim theorems. -/

/-- The `updateExpressions` list has length one (only the `updatedAt`
clause) exactly when all four optional input fields are absent. -/
theorem buildUpdateExpressions_length_one (input : UpdatePatientInput)
    (now : String) :
    (buildUpdateExpressions input now).length = 1
      ↔ (input.name = none ∧ input.address = none
          ∧ input.conditions = none ∧ input.allergies = none) := by
  cases h1 : input.name <;> cases h2 : input.address <;>
    cases h3 : input.conditions <;> cases h4 : input.allergies <;>
    simp [buildUpdateExpressions, h1, h2, h3, h4]

/-- The conditional-write failure message does not contain the pattern
"No fields to update". -/
theorem condMsg_no_fields : strIncludes conditionalRequestFailedMsg
    "No fields to update" = false := by decide

/-- The conditional-write failure message does not contain the pattern
"attribute_not_exists". -/
theorem condMsg_attr : strIncludes conditionalRequestFailedMsg
    "attribute_not_exists" = false := by decide

/-! Claim theorems. -/

/-- C1: for every query string, when the secondary search service is not
configured, or the search call rejects with any error, the result of
`findPatientsByCondition` equals the primary-store scan filtered for
records whose `conditions` list contains the query string; the return type
is a plain list, so the search-service rejection never reaches the caller. -/
theorem findByCondition_fallback_eq_scan (store : Store) (condition : String)
    (svc : MultiMatchQuery → Except String (List Patient)) (e : String) :
    findPatientsByCondition false svc store condition
        = scanByCondition store condition
    ∧ (svc (buildConditionQuery condition) = Except.error e →
        findPatientsByCondition true svc store condition
          = scanByCondition store condition) := by
  constructor
  · rfl
  · intro h
    simp [findPatientsByCondition, searchPatientsByCondition, h]

/-- Witness for C1: with a rejecting search service, the fallback equals
the scan on a concrete store. -/
theorem findByCondition_fallback_eq_scan_witness :
    findPatientsByCondition true (fun _ => Except.error "service down")
        demoStore "Diabetes"
      = scanByCondition demoStore "Diabetes" :=
  (findByCondition_fallback_eq_scan demoStore "Diabetes"
    (fun _ => Except.error "service down") "service down").2 rfl

/-- C5: an update whose input has none of the four optional fields fails
with the "No fields to update" error before the primary store is contacted,
for every store (whether or not the target exists), and the resulting store
is unchanged. -/
theorem updatePatient_no_fields_rejected (store : Store) (pid now : String)
    (io : Except String Unit) :
    updatePatient store
        { patientId := pid, name := none, address := none,
          conditions := none, allergies := none } now io
      = (Except.error "No fields to update", store) := rfl

/-- C8: the search path issues one multi-match query whose fields are
`conditions` boosted by 2 together with `name` and `address`, with AUTO
fuzziness and result size capped at 100, and when the service answers,
`findPatientsByCondition` returns exactly those documents. -/
theorem search_query_shape_and_passthrough (condition : String)
    (store : Store) (docs : List Patient)
    (svc : MultiMatchQuery → Except String (List Patient)) :
    (buildConditionQuery condition).fields = ["conditions^2", "name", "address"]
    ∧ (buildConditionQuery condition).size = 100
    ∧ (buildConditionQuery condition).fuzziness = "AUTO"
    ∧ (buildConditionQuery condition).query = condition
    ∧ (buildConditionQuery condition).fromOffset = 0
    ∧ (svc (buildConditionQuery condition) = Except.ok docs →
        findPatientsByCondition true svc store condition = docs) := by
  refine ⟨rfl, rfl, rfl, rfl, rfl, ?_⟩
  intro h
  simp [findPatientsByCondition, searchPatientsByCondition, h]

/-- Witness for C8: a concrete service answering one document is passed
through verbatim. -/
theorem search_query_shape_and_passthrough_witness :
    findPatientsByCondition true (fun _ => Except.ok [demoPatient])
        demoStore "Diabetes" = [demoPatient] :=
  (search_query_shape_and_passthrough "Diabetes" demoStore [demoPatient]
    (fun _ => Except.ok [demoPatient])).2.2.2.2.2 rfl

/-- C9: the secondary-index helpers are total at their interface: with the
client unconfigured they return at once without consulting the call
outcome; with it configured, every call outcome (including any rejection)
yields a normal return, never a throw; and `deletePatientIndex` treats a
rejection whose message contains "not_found" as success. -/
theorem index_helpers_never_throw (call : Except String Unit) (e : String) :
    indexPatient false call = Except.ok IndexOutcome.skipped
    ∧ deletePatientIndex false call = Except.ok DeleteIndexOutcome.skipped
    ∧ (∃ o, indexPatient true call = Except.ok o)
    ∧ (∃ o, deletePatientIndex true call = Except.ok o)
    ∧ indexPatient true (Except.error e) = Except.ok (IndexOutcome.logged e)
    ∧ (strIncludes e "not_found" = true →
        deletePatientIndex true (Except.error e)
          = Except.ok DeleteIndexOutcome.notFoundOk) := by
  refine ⟨rfl, rfl, ?_, ?_, rfl, ?_⟩
  · cases call with
    | ok u => exact ⟨IndexOutcome.indexed, rfl⟩
    | error m => exact ⟨IndexOutcome.logged m, rfl⟩
  · cases call with
    | ok u => exact ⟨DeleteIndexOutcome.deleted, rfl⟩
    | error m =>
        by_cases hm : strIncludes m "not_found" = true
        · exact ⟨DeleteIndexOutcome.notFoundOk, by simp [deletePatientIndex, hm]⟩
        · exact ⟨DeleteIndexOutcome.logged m, by simp [deletePatientIndex, hm]⟩
  · intro h
    simp [deletePatientIndex, h]

/-- Witness for C9: a concrete "not_found" rejection is treated as
success. -/
theorem index_helpers_never_throw_witness :
    deletePatientIndex true (Except.error "index_not_found_exception")
      = Except.ok DeleteIndexOutcome.notFoundOk :=
  (index_helpers_never_throw (Except.error "index_not_found_exception")
    "index_not_found_exception").2.2.2.2.2 (by decide)

/-- C2: on both write paths, once the primary-store write succeeds the
outcome of the secondary-index mirroring never reaches the caller: the
call with any rejected mirroring returns the very same successful result
as the call with a successful mirroring. -/
theorem write_paths_ignore_index_failure (store : Store)
    (input : CreatePatientInput) (now newId : String)
    (uinput : UpdatePatientInput) (err : String) :
    (findById store newId = none →
      createPatient store input now newId (Except.error err)
          = Except.ok (mkNewPatient input now newId,
              mkNewPatient input now newId :: store)
        ∧ createPatient store input now newId (Except.error err)
            = createPatient store input now newId (Except.ok ()))
    ∧ (∀ old : Patient,
        (buildUpdateExpressions uinput now).length ≠ 1 →
        findById store uinput.patientId = some old →
        (updatePatient store uinput now (Except.error err)).1
            = Except.ok (applyUpdates old (buildUpdateExpressions uinput now))
          ∧ updatePatient store uinput now (Except.error err)
              = updatePatient store uinput now (Except.ok ())) := by
  constructor
  · intro h
    constructor
    · simp [createPatient, h]
    · rfl
  · intro old hlen hfound
    constructor
    · simp [updatePatient, hlen, hfound]
    · rfl

/-- Witness for C2: concrete create and update calls whose secondary-index
mirroring rejects still succeed. -/
theorem write_paths_ignore_index_failure_witness :
    createPatient demoStore
        { name := "Jane Roe", address := "9 Elm St",
          conditions := ["Asthma"], allergies := [] }
        "2026-02-02T00:00:00.000Z" "p2" (Except.error "index down")
      = Except.ok (mkNewPatient
          { name := "Jane Roe", address := "9 Elm St",
            conditions := ["Asthma"], allergies := [] }
          "2026-02-02T00:00:00.000Z" "p2",
        mkNewPatient
          { name := "Jane Roe", address := "9 Elm St",
            conditions := ["Asthma"], allergies := [] }
          "2026-02-02T00:00:00.000Z" "p2" :: demoStore)
    ∧ (updatePatient demoStore
        { patientId := "p1", name := some "John D", address := none,
          conditions := none, allergies := none }
        "2026-02-02T00:00:00.000Z" (Except.error "index down")).1
      = Except.ok (applyUpdates demoPatient
          (buildUpdateExpressions
            { patientId := "p1", name := some "John D", address := none,
              conditions := none, allergies := none }
            "2026-02-02T00:00:00.000Z")) := by
  constructor
  · exact (write_paths_ignore_index_failure demoStore
      { name := "Jane Roe", address := "9 Elm St",
        conditions := ["Asthma"], allergies := [] }
      "2026-02-02T00:00:00.000Z" "p2"
      { patientId := "p1", name := some "John D", address := none,
        conditions := none, allergies := none }
      "index down").1 (by decide) |>.1
  · exact ((write_paths_ignore_index_failure demoStore
      { name := "Jane Roe", address := "9 Elm St",
        conditions := ["Asthma"], allergies := [] }
      "2026-02-02T00:00:00.000Z" "p2"
      { patientId := "p1", name := some "John D", address := none,
        conditions := none, allergies := none }
      "index down").2 demoPatient (by decide) (by decide)).1

/-- C3 counterexample: deleting an id absent from the store answers
HTTP 500, not the 404 the claim states (the delete handler maps every
service error to 500 and has no 404 branch at all). -/
theorem delete_unknown_id_counterexample :
    (deletePatientHandler "no-such-id" demoStore (Except.ok ())).1.status = 500
    ∧ ¬ (deletePatientHandler "no-such-id" demoStore
          (Except.ok ())).1.status = 404 := by
  decide

/-- C3 amended: on an id absent from the primary store, get answers 404,
but update (with at least one field set) and delete both answer 500: the
conditional-write failure message matches neither of the update handler
400-patterns, and the delete handler maps every service error to 500. -/
theorem unknown_id_get404_update500_delete500 (store : Store) (pid : String)
    (body : RequestBody) (now : String) (io del : Except String Unit)
    (hpid : ¬ pid = "") (habsent : findById store pid = none)
    (hfields : ¬(body.name = none ∧ body.address = none
        ∧ body.conditions = none ∧ body.allergies = none)) :
    (getPatientHandler pid store).status = 404
    ∧ (updatePatientHandler pid body store now io).1.status = 500
    ∧ (deletePatientHandler pid store del).1.status = 500 := by
  have hlen : ¬ (buildUpdateExpressions
      { patientId := pid, name := body.name, address := body.address,
        conditions := body.conditions, allergies := body.allergies }
      now).length = 1 := by
    rw [buildUpdateExpressions_length_one]
    exact hfields
  refine ⟨?_, ?_, ?_⟩
  · simp [getPatientHandler, getPatientById, habsent, hpid]
  · simp [updatePatientHandler, updatePatient, hpid, habsent, hlen,
      condMsg_no_fields, condMsg_attr]
  · simp [deletePatientHandler, deletePatient, habsent, hpid]

/-- Witness for the amended C3 at a concrete unknown id. -/
theorem unknown_id_get404_update500_delete500_witness :
    (getPatientHandler "missing" demoStore).status = 404
    ∧ (updatePatientHandler "missing"
        { name := some "X", address := none, conditions := none,
          allergies := none }
        demoStore "2026-02-02T00:00:00.000Z" (Except.ok ())).1.status = 500
    ∧ (deletePatientHandler "missing" demoStore (Except.ok ())).1.status
        = 500 :=
  unknown_id_get404_update500_delete500 demoStore "missing"
    { name := some "X", address := none, conditions := none,
      allergies := none }
    "2026-02-02T00:00:00.000Z" (Except.ok ()) (Except.ok ())
    (by decide) (by decide) (by decide)

/-- C4: for every fresh generated id, `createPatient` succeeds and the
returned record carries exactly the generated (non-empty) id — the input
type has no id field, so the caller can never supply one — with
`createdAt = updatedAt = now` and the four caller fields copied verbatim. -/
theorem createPatient_id_and_timestamps (store : Store)
    (input : CreatePatientInput) (now newId : String)
    (io : Except String Unit)
    (hid : ¬ newId = "") (hfresh : findById store newId = none) :
    createPatient store input now newId io
        = Except.ok (mkNewPatient input now newId,
            mkNewPatient input now newId :: store)
    ∧ (mkNewPatient input now newId).patientId = newId
    ∧ ¬ (mkNewPatient input now newId).patientId = ""
    ∧ (mkNewPatient input now newId).createdAt = now
    ∧ (mkNewPatient input now newId).updatedAt = now
    ∧ (mkNewPatient input now newId).createdAt
        = (mkNewPatient input now newId).updatedAt
    ∧ (mkNewPatient input now newId).name = input.name
    ∧ (mkNewPatient input now newId).address = input.address
    ∧ (mkNewPatient input now newId).conditions = input.conditions
    ∧ (mkNewPatient input now newId).allergies = input.allergies := by
  refine ⟨?_, rfl, hid, rfl, rfl, rfl, rfl, rfl, rfl, rfl⟩
  simp [createPatient, hfresh]

/-- Witness for C4 at a concrete fresh id. -/
theorem createPatient_id_and_timestamps_witness :
    createPatient demoStore
        { name := "Jane Roe", address := "9 Elm St",
          conditions := ["Asthma"], allergies := [] }
        "2026-02-02T00:00:00.000Z" "fresh-id" (Except.ok ())
      = Except.ok (mkNewPatient
          { name := "Jane Roe", address := "9 Elm St",
            conditions := ["Asthma"], allergies := [] }
          "2026-02-02T00:00:00.000Z" "fresh-id",
        mkNewPatient
          { name := "Jane Roe", address := "9 Elm St",
            conditions := ["Asthma"], allergies := [] }
          "2026-02-02T00:00:00.000Z" "fresh-id" :: demoStore) :=
  (createPatient_id_and_timestamps demoStore
    { name := "Jane Roe", address := "9 Elm St",
      conditions := ["Asthma"], allergies := [] }
    "2026-02-02T00:00:00.000Z" "fresh-id" (Except.ok ())
    (by decide) (by decide)).1

/-- Field-by-field effect of the dynamic `UpdateExpression`: the key and
`createdAt` are never touched, `updatedAt` becomes `now`, and each of the
four data fields becomes the supplied value when present and keeps its old
value otherwise. -/
theorem applyUpdates_fields (old : Patient) (input : UpdatePatientInput)
    (now : String) :
    (applyUpdates old (buildUpdateExpressions input now)).patientId
        = old.patientId
    ∧ (applyUpdates old (buildUpdateExpressions input now)).createdAt
        = old.createdAt
    ∧ (applyUpdates old (buildUpdateExpressions input now)).updatedAt = now
    ∧ (applyUpdates old (buildUpdateExpressions input now)).name
        = input.name.getD old.name
    ∧ (applyUpdates old (buildUpdateExpressions input now)).address
        = input.address.getD old.address
    ∧ (applyUpdates old (buildUpdateExpressions input now)).conditions
        = input.conditions.getD old.conditions
    ∧ (applyUpdates old (buildUpdateExpressions input now)).allergies
        = input.allergies.getD old.allergies := by
  cases h1 : input.name <;> cases h2 : input.address <;>
    cases h3 : input.conditions <;> cases h4 : input.allergies <;>
    simp [buildUpdateExpressions, applyUpdates, applyFieldUpd, h1, h2, h3, h4]

/-- C6: updating an existing record with at least one field set succeeds,
stores and returns the complete post-update record in which only the
supplied fields and `updatedAt` differ from the prior record — the key,
`createdAt` and every unsupplied field are preserved — `updatedAt` is the
write time, and it strictly exceeds its prior value whenever the write
time does. -/
theorem updatePatient_partial_frame (store : Store)
    (input : UpdatePatientInput) (now : String) (io : Except String Unit)
    (old : Patient)
    (hfound : findById store input.patientId = some old)
    (hfields : ¬(input.name = none ∧ input.address = none
        ∧ input.conditions = none ∧ input.allergies = none)) :
    ∃ p, updatePatient store input now io = (Except.ok p, replaceById store p)
      ∧ p.patientId = old.patientId
      ∧ p.createdAt = old.createdAt
      ∧ p.updatedAt = now
      ∧ p.name = input.name.getD old.name
      ∧ p.address = input.address.getD old.address
      ∧ p.conditions = input.conditions.getD old.conditions
      ∧ p.allergies = input.allergies.getD old.allergies
      ∧ (old.updatedAt < now → old.updatedAt < p.updatedAt) := by
  have hlen : ¬ (buildUpdateExpressions input now).length = 1 := by
    rw [buildUpdateExpressions_length_one]
    exact hfields
  obtain ⟨ha, hb, hc, hd, he, hf, hg⟩ := applyUpdates_fields old input now
  refine ⟨applyUpdates old (buildUpdateExpressions input now),
    ?_, ha, hb, hc, hd, he, hf, hg, ?_⟩
  · simp [updatePatient, hlen, hfound]
  · intro h
    rw [hc]
    exact h

/-- Witness for C6: a concrete partial update replacing only `conditions`. -/
theorem updatePatient_partial_frame_witness :
    ∃ p, updatePatient demoStore
        { patientId := "p1", name := none, address := none,
          conditions := some ["Diabetes", "Hypertension"], allergies := none }
        "2026-03-03T00:00:00.000Z" (Except.ok ())
        = (Except.ok p, replaceById demoStore p)
      ∧ p.patientId = demoPatient.patientId
      ∧ p.createdAt = demoPatient.createdAt
      ∧ p.updatedAt = "2026-03-03T00:00:00.000Z"
      ∧ p.name = (Option.getD none demoPatient.name)
      ∧ p.address = (Option.getD none demoPatient.address)
      ∧ p.conditions
          = (Option.getD (some ["Diabetes", "Hypertension"])
              demoPatient.conditions)
      ∧ p.allergies = (Option.getD none demoPatient.allergies)
      ∧ (demoPatient.updatedAt < "2026-03-03T00:00:00.000Z" →
          demoPatient.updatedAt < p.updatedAt) :=
  updatePatient_partial_frame demoStore
    { patientId := "p1", name := none, address := none,
      conditions := some ["Diabetes", "Hypertension"], allergies := none }
    "2026-03-03T00:00:00.000Z" (Except.ok ()) demoPatient
    (by decide) (by decide)

/-- C7 counterexample: a create request supplying an empty `conditions`
array (with the other fields present and non-empty) is not rejected: the
boundary answers 201, because a JavaScript array — even empty — is truthy,
so the `!conditions` check never fires on arrays. -/
theorem create_empty_array_accepted_counterexample :
    (createPatientHandler
        { name := some "John Doe", address := some "123 Main St",
          conditions := some [], allergies := some ["Penicillin"] }
        ([] : Store) "2026-01-01T00:00:00.000Z" "new-id"
        (Except.ok ())).1.status = 201
    ∧ ¬ (createPatientHandler
        { name := some "John Doe", address := some "123 Main St",
          conditions := some [], allergies := some ["Penicillin"] }
        ([] : Store) "2026-01-01T00:00:00.000Z" "new-id"
        (Except.ok ())).1.status = 400 := by
  decide

/-- C7 amended: the boundary rejects with 400 — before the service layer
runs, leaving the store untouched — exactly when some field is missing or
`name` or `address` is the empty string; empty `conditions` or `allergies`
arrays pass validation (arrays are truthy in JavaScript). -/
theorem create_validation_shape (body : RequestBody) (store : Store)
    (now newId : String) (io : Except String Unit) :
    ((createPatientHandler body store now newId io).1.status = 400
      ↔ (body.name = none ∨ body.name = some "" ∨ body.address = none
          ∨ body.address = some "" ∨ body.conditions = none
          ∨ body.allergies = none))
    ∧ ((body.name = none ∨ body.name = some "" ∨ body.address = none
          ∨ body.address = some "" ∨ body.conditions = none
          ∨ body.allergies = none) →
        (createPatientHandler body store now newId io).2 = store) := by
  have hval : (!(jsTruthyStr body.name) || !(jsTruthyStr body.address) ||
      !(jsTruthyList body.conditions) || !(jsTruthyList body.allergies))
        = true
      ↔ (body.name = none ∨ body.name = some "" ∨ body.address = none
          ∨ body.address = some "" ∨ body.conditions = none
          ∨ body.allergies = none) := by
    cases h1 : body.name <;> cases h2 : body.address <;>
      cases h3 : body.conditions <;> cases h4 : body.allergies <;>
      simp [jsTruthyStr, jsTruthyList, h1, h2, h3, h4]
  by_cases hc : (!(jsTruthyStr body.name) || !(jsTruthyStr body.address) ||
      !(jsTruthyList body.conditions) || !(jsTruthyList body.allergies))
        = true
  · refine ⟨⟨fun _ => hval.mp hc, fun _ => ?_⟩, fun _ => ?_⟩
    · simp [createPatientHandler, hc]
    · simp [createPatientHandler, hc]
  · constructor
    · constructor
      · intro hs
        exfalso
        rcases hcp : createPatient store
            { name := body.name.getD "", address := body.address.getD "",
              conditions := body.conditions.getD [],
              allergies := body.allergies.getD [] } now newId io with p | m
        · simp [createPatientHandler, hc, hcp] at hs
        · simp [createPatientHandler, hc, hcp] at hs
      · intro hd
        exact absurd (hval.mpr hd) hc
    · intro hd
      exact absurd (hval.mpr hd) hc

/-- Witness for the amended C7: a request with an empty-string name is
rejected with 400 and the store is unchanged. -/
theorem create_validation_shape_witness :
    (createPatientHandler
        { name := some "", address := some "123 Main St",
          conditions := some ["Diabetes"], allergies := some ["Penicillin"] }
        demoStore "2026-01-01T00:00:00.000Z" "new-id"
        (Except.ok ())).1.status = 400
    ∧ (createPatientHandler
        { name := some "", address := some "123 Main St",
          conditions := some ["Diabetes"], allergies := some ["Penicillin"] }
        demoStore "2026-01-01T00:00:00.000Z" "new-id"
        (Except.ok ())).2 = demoStore := by
  constructor
  · exact (create_validation_shape
      { name := some "", address := some "123 Main St",
        conditions := some ["Diabetes"], allergies := some ["Penicillin"] }
      demoStore "2026-01-01T00:00:00.000Z" "new-id" (Except.ok ())).1.mpr
      (Or.inr (Or.inl rfl))
  · exact (create_validation_shape
      { name := some "", address := some "123 Main St",
        conditions := some ["Diabetes"], allergies := some ["Penicillin"] }
      demoStore "2026-01-01T00:00:00.000Z" "new-id" (Except.ok ())).2
      (Or.inr (Or.inl rfl))

/-- C10: the list boundary enumerates with limit 50 when the `limit` query
parameter is absent (`parseInt` of `undefined` is NaN), non-numeric, or
parses to 0 (both NaN and 0 are falsy before `|| 50`), and with the parsed
integer verbatim otherwise; the handler passes the page and the
continuation key of the store response through unchanged, and the paged
scan reports a continuation key exactly when records remain past the
page. -/
theorem list_limit_and_continuation (lp : Option String)
    (parseKey : String → Except String String)
    (scan : Int → Option String → ScanResponse) (store : Store) (m : Nat)
    (n : Int) :
    parseIntJS none = none
    ∧ (parseIntJS lp = none → effectiveLimit lp = 50)
    ∧ (parseIntJS lp = some 0 → effectiveLimit lp = 50)
    ∧ (parseIntJS lp = some n → ¬ n = 0 → effectiveLimit lp = n)
    ∧ listPatientsHandler lp none parseKey scan
        = listOkResponse ((scan (effectiveLimit lp) none).items,
            (scan (effectiveLimit lp) none).lastEvaluatedKey)
    ∧ ((scanWithLimit store m).lastEvaluatedKey).isSome
        = decide (m < store.length) := by
  refine ⟨rfl, ?_, ?_, ?_, rfl, ?_⟩
  · intro h
    simp [effectiveLimit, h]
  · intro h
    simp [effectiveLimit, h]
  · intro h hn
    simp [effectiveLimit, h, hn]
  · by_cases hm : m < store.length <;> simp [scanWithLimit, hm]

/-- Witness for C10 at concrete query parameters: a non-numeric limit and
a zero limit default to 50, a numeric one is used verbatim. -/
theorem list_limit_and_continuation_witness :
    effectiveLimit (some "abc") = 50
    ∧ effectiveLimit (some "0") = 50
    ∧ effectiveLimit (some "7") = 7 := by
  refine ⟨?_, ?_, ?_⟩
  · exact (list_limit_and_continuation (some "abc")
      (fun s => Except.ok s) (fun _ _ => ⟨[], none⟩) [] 0 7).2.1 (by decide)
  · exact (list_limit_and_continuation (some "0")
      (fun s => Except.ok s) (fun _ _ => ⟨[], none⟩) [] 0 7).2.2.1 (by decide)
  · exact (list_limit_and_continuation (some "7")
      (fun s => Except.ok s) (fun _ _ => ⟨[], none⟩) [] 0 7).2.2.2.1
      (by decide) (by decide)

end PatientService
